import Mathlib

/-!
Verification of the Nightingale incident-resolution pipeline.

This file gives a shallow embedding, in Lean, of the core data model and
operations of the Nightingale SRE agent (src/nightingale/...), and proves
or refutes the frozen specification claims about it.

Modelling conventions:
* Python floats are modelled as rationals (`ℚ`); all the constants involved
  (0.85, 0.5, 0.3, the factor weights, ...) are exactly representable.
* Python strings are Lean `String`s; string scanning is done over `List Char`
  with structural recursion so that concrete runs reduce in the kernel.
* The filesystem is an association list from resolved absolute paths
  (component lists) to file contents.
* External effects (the LLM network call, `subprocess.run`, SHA-256,
  `json.loads`) are oracles passed in as function arguments; the code under
  verification never inspects their internals, only their results.
* Source field names `pass_ratio` / `test_pass_ratio` are rendered as
  `pass_rat` / `test_pass_rat`.
-/

namespace Nightingale

/-! Character and string helpers (structural, kernel-reducible). -/

/-- Python `str.lower` restricted to ASCII (all paths in the risk tables are ASCII). -/
def lowerChar (c : Char) : Char :=
  if 'A' ≤ c ∧ c ≤ 'Z' then Char.ofNat (c.toNat + 32) else c

/-- Lowercase a string, as `file_path.lower()` does in `_classify_file_risk`. -/
def lowerStr (s : String) : String := String.mk (s.toList.map lowerChar)

/-- Decidable prefix test on character lists. -/
def isPrefixOfCl : List Char → List Char → Bool
  | [], _ => true
  | _ :: _, [] => false
  | a :: as, b :: bs => a = b && isPrefixOfCl as bs

/-- Decidable substring (infix) test on character lists: Python `pat in s`. -/
def isInfixOfCl (pat : List Char) : List Char → Bool
  | [] => isPrefixOfCl pat []
  | c :: rest => isPrefixOfCl pat (c :: rest) || isInfixOfCl pat rest

/-- Python `pat in s` on strings. -/
def containsStr (pat s : String) : Bool := isInfixOfCl pat.toList s.toList

/-- Whitespace characters recognized by Python's regex `\s`. -/
def isPySpace (c : Char) : Bool :=
  c = ' ' || c = '\t' || c = '\n' || c = '\r' || c = '\x0b' || c = '\x0c'

/-- Decimal digit test (Python regex `\d` on ASCII output). -/
def isDig (c : Char) : Bool := '0' ≤ c ∧ c ≤ '9'

/-- Take the maximal leading digit run; return its value and the rest.
Returns `none` when the first character is not a digit. -/
def takeDigits : List Char → Option (Nat × List Char)
  | s =>
    let rec go : List Char → Nat → Bool → Option (Nat × List Char)
      | [], acc, seen => if seen then some (acc, []) else none
      | c :: rest, acc, seen =>
        if isDig c then go rest (acc * 10 + (c.toNat - 48)) true
        else if seen then some (acc, c :: rest) else none
    go s 0 false

/-- Require at least one `\s` character, then drop the maximal whitespace run. -/
def dropSpaces1 : List Char → Option (List Char)
  | [] => none
  | c :: rest =>
    if isPySpace c then
      let rec go : List Char → List Char
        | [] => []
        | d :: ds => if isPySpace d then go ds else d :: ds
      some (go rest)
    else none

/-- Drop a maximal (possibly empty) whitespace run: regex `\s*`. -/
def dropSpaces0 : List Char → List Char
  | [] => []
  | c :: rest => if isPySpace c then dropSpaces0 rest else c :: rest

/-- Python `str.strip`. -/
def stripStr (s : String) : String :=
  String.mk (((s.toList.dropWhile isPySpace).reverse.dropWhile isPySpace).reverse)

/-! Data model (src/nightingale/types.py). -/

/-- Literal type of `FileDiff.change_type`. -/
inductive ChangeType
  | modify
  | add
  | delete
deriving DecidableEq, Repr

/-- Risk levels (`RiskLevel` enum). -/
inductive RiskLevel
  | low
  | medium
  | high
  | critical
deriving DecidableEq, Repr

/-- One proposed file edit (`FileDiff`). -/
structure FileDiff where
  file_path : String
  change_type : ChangeType
  diff_content : String
deriving DecidableEq, Repr

/-- Outcome of running a plan (`VerificationResult`).  `tests_passed` is an
integer because `_parse_test_output` can compute `total - failures`, which
Python does not clamp at zero. -/
structure VerificationResult where
  success : Bool
  input_hash : String
  output_log : String
  duration_ms : Nat := 0
  tests_passed : Int := 0
  tests_failed : Int := 0
  tests_total : Int := 0
  exit_code : Int := 0
deriving DecidableEq, Repr

/-- Derived property `VerificationResult.pass_ratio`:
`passed / total`, or `1` when `total == 0` and the run succeeded, else `0`. -/
def VerificationResult.pass_rat (r : VerificationResult) : ℚ :=
  if r.tests_total = 0 then (if r.success then 1 else 0)
  else (r.tests_passed : ℚ) / (r.tests_total : ℚ)

/-- One attempt's proposal (`FixPlan`). -/
structure FixPlan where
  rationale : String
  root_cause : String := ""
  files_to_change : List FileDiff
  verification_steps : List String
  confidence_score : ℚ := 0
  risk_level : RiskLevel := RiskLevel.medium
  attempt_number : Nat := 1
  previous_failure_context : Option String := none
deriving DecidableEq, Repr

/-- JSON string escaping as used by `json.dumps` (the cases that can occur
in file contents; other characters pass through unescaped). -/
def jsonEscape (s : String) : String :=
  String.mk (s.toList.flatMap (fun c =>
    if c = '\\' then ['\\', '\\']
    else if c = '"' then ['\\', '"']
    else if c = '\n' then ['\\', 'n']
    else if c = '\t' then ['\\', 't']
    else if c = '\r' then ['\\', 'r']
    else [c]))

/-- Serialization of one `FileDiff` as `json.dumps(f.model_dump(), sort_keys=True)`
renders it inside the list: keys in sorted order. -/
def serializeFileDiff (d : FileDiff) : String :=
  let ct := match d.change_type with
    | ChangeType.modify => "modify"
    | ChangeType.add => "add"
    | ChangeType.delete => "delete"
  String.append (String.append (String.append (String.append (String.append
    ("\x7b\x22change_type\x22: \x22") ct)
    ("\x22, \x22diff_content\x22: \x22")) (jsonEscape d.diff_content))
    ("\x22, \x22file_path\x22: \x22" ++ jsonEscape d.file_path))
    ("\x22\x7d")

/-- Serialization of the `files_to_change` list fed to the fingerprint hash. -/
def serializeFiles (l : List FileDiff) : String :=
  "[" ++ String.intercalate (", ") (l.map serializeFileDiff) ++ "]"

/-- Content fingerprint of a plan (`FixPlan.content_hash`): the hex digest of
SHA-256 over the canonical JSON of `files_to_change`, truncated to 16 chars.
The digest function is an oracle parameter `sha16`. -/
def FixPlan.content_hash (sha16 : String → String) (p : FixPlan) : String :=
  sha16 (serializeFiles p.files_to_change)

/-- The five confidence factors (`ConfidenceFactors`), with the pydantic
defaults.  Source name of the first field: `test_pass_ratio`. -/
structure ConfidenceFactors where
  test_pass_rat : ℚ := 0
  inverse_blast_radius : ℚ := 1
  attempt_penalty : ℚ := 1
  risk_modifier : ℚ := 1/2
  self_consistency_score : ℚ := 1/2
deriving DecidableEq, Repr

/-- Weighted confidence score (`ConfidenceFactors.weighted_score`). -/
def ConfidenceFactors.weighted_score (f : ConfidenceFactors) : ℚ :=
  35/100 * f.test_pass_rat +
  25/100 * f.inverse_blast_radius +
  15/100 * f.attempt_penalty +
  15/100 * f.risk_modifier +
  10/100 * f.self_consistency_score

/-- Record of a single fix attempt (`AttemptRecord`; timestamps omitted,
the trace is not modelled). -/
structure AttemptRecord where
  attempt_number : Nat
  fix_plan : Option FixPlan := none
  verification_result : Option VerificationResult := none
  failure_reason : Option String := none
deriving DecidableEq, Repr

/-! Resolution gate (src/nightingale/analysis/confidence.py, `ResolutionEngine`). -/

/-- The two decisions `ResolutionEngine.decide` can return. -/
inductive Decision
  | resolve
  | escalate
deriving DecidableEq, Repr

/-- Shallow embedding of `ResolutionEngine.decide`: hard threshold check,
then the two safety overrides, applied only when factors are provided. -/
def ResolutionEngine.decide (resolve_threshold : ℚ) (confidence_score : ℚ)
    (factors : Option ConfidenceFactors) : Decision :=
  if resolve_threshold ≤ confidence_score then
    match factors with
    | some f =>
      if f.test_pass_rat < 1/2 then Decision.escalate
      else if f.inverse_blast_radius < 3/10 then Decision.escalate
      else Decision.resolve
    | none => Decision.resolve
  else Decision.escalate

/-! Test-output parsing (src/nightingale/agents/verifier.py,
`VerificationAgent._parse_test_output`).  Each of the source's regular
expressions is rendered as a leftmost scan with greedy digit / whitespace
runs, which coincides with Python's semantics for these patterns. -/

/-- Match, at the head of the list, regex `(\d+)\s+LIT` for a literal `LIT`. -/
def matchNumSpLit (lit : List Char) (s : List Char) : Option Nat :=
  match takeDigits s with
  | none => none
  | some (n, rest) =>
    match dropSpaces1 rest with
    | none => none
    | some rest2 => if isPrefixOfCl lit rest2 then some n else none

/-- Leftmost search for regex `(\d+)\s+LIT`
(e.g. `(\d+)\s+passed`, `(\d+)\s+failed`). -/
def searchNumSpLit (lit : List Char) : List Char → Option Nat
  | [] => none
  | c :: rest =>
    match matchNumSpLit lit (c :: rest) with
    | some n => some n
    | none => searchNumSpLit lit rest

/-- Match, at the head, regex `=+\s*(\d+)\s+passed` (pytest short format). -/
def matchEqFence (s : List Char) : Option Nat :=
  match s with
  | '=' :: rest =>
    let r1 := (rest.dropWhile (fun c => c = '=')).dropWhile isPySpace
    match takeDigits r1 with
    | none => none
    | some (n, r2) =>
      match dropSpaces1 r2 with
      | none => none
      | some r3 => if isPrefixOfCl ("passed".toList) r3 then some n else none
  | _ => none

/-- Leftmost search for `=+\s*(\d+)\s+passed`. -/
def searchEqFence : List Char → Option Nat
  | [] => none
  | c :: rest =>
    match matchEqFence (c :: rest) with
    | some n => some n
    | none => searchEqFence rest

/-- Match, at the head, regex `Ran\s+(\d+)\s+test` (unittest format). -/
def matchRan (s : List Char) : Option Nat :=
  if isPrefixOfCl ("Ran".toList) s then
    match dropSpaces1 (s.drop 3) with
    | none => none
    | some r1 =>
      match takeDigits r1 with
      | none => none
      | some (n, r2) =>
        match dropSpaces1 r2 with
        | none => none
        | some r3 => if isPrefixOfCl ("test".toList) r3 then some n else none
  else none

/-- Leftmost search for `Ran\s+(\d+)\s+test`. -/
def searchRan : List Char → Option Nat
  | [] => none
  | c :: rest =>
    match matchRan (c :: rest) with
    | some n => some n
    | none => searchRan rest

/-- Match, at the head, regex `failures=(\d+)`. -/
def matchFailuresEq (s : List Char) : Option Nat :=
  if isPrefixOfCl ("failures=".toList) s then
    match takeDigits (s.drop 9) with
    | none => none
    | some (n, _) => some n
  else none

/-- Leftmost search for `failures=(\d+)`. -/
def searchFailuresEq : List Char → Option Nat
  | [] => none
  | c :: rest =>
    match matchFailuresEq (c :: rest) with
    | some n => some n
    | none => searchFailuresEq rest

/-- The lazy `.*?(\d+)\s+failed` part of the jest pattern: the dot of a
Python regex does not cross a newline. -/
def jestTail : List Char → Option Nat
  | [] => none
  | c :: rest =>
    match matchNumSpLit ("failed".toList) (c :: rest) with
    | some n => some n
    | none => if c = '\n' then none else jestTail rest

/-- Match, at the head, regex `Tests:\s*(\d+)\s+passed.*?(\d+)\s+failed`. -/
def matchJest (s : List Char) : Option (Nat × Nat) :=
  if isPrefixOfCl ("Tests:".toList) s then
    let r1 := dropSpaces0 (s.drop 6)
    match takeDigits r1 with
    | none => none
    | some (p, r2) =>
      match dropSpaces1 r2 with
      | none => none
      | some r3 =>
        if isPrefixOfCl ("passed".toList) r3 then
          match jestTail (r3.drop 6) with
          | some f => some (p, f)
          | none => none
        else none
  else none

/-- Leftmost search for the jest pattern. -/
def searchJest : List Char → Option (Nat × Nat)
  | [] => none
  | c :: rest =>
    match matchJest (c :: rest) with
    | some pf => some pf
    | none => searchJest rest

/-- Shallow embedding of `VerificationAgent._parse_test_output`.  Returns
`(passed, failed, total)`.  `passed` is an integer because the unittest
branch computes `total - failed` without clamping. -/
def VerificationAgent.parse_test_output (output : String) : Int × Int × Int :=
  let s := output.toList
  let passed0 : Int :=
    match searchNumSpLit ("passed".toList) s with
    | some n => (n : Int)
    | none => 0
  let failed0 : Int :=
    match searchNumSpLit ("failed".toList) s with
    | some n => (n : Int)
    | none => 0
  let passed1 : Int :=
    if passed0 = 0 then
      match searchEqFence s with
      | some n => (n : Int)
      | none => passed0
    else passed0
  let pf2 : Int × Int :=
    match searchRan s with
    | some tot =>
      if passed1 = 0 ∧ failed0 = 0 then
        if containsStr ("OK") output then ((tot : Int), failed0)
        else if containsStr ("FAILED") output then
          match searchFailuresEq s with
          | some fcnt => ((tot : Int) - (fcnt : Int), (fcnt : Int))
          | none => (passed1, failed0)
        else (passed1, failed0)
      else (passed1, failed0)
    | none => (passed1, failed0)
  let pf3 : Int × Int :=
    match searchJest s with
    | some (p, f) => ((p : Int), (f : Int))
    | none => pf2
  (pf3.1, pf3.2, pf3.1 + pf3.2)

/-! Verification agent (src/nightingale/agents/verifier.py, `verify`). -/

/-- Result of one `sandbox.run_command` call: the subprocess is external, so
its outcome is an oracle supplied as a function from command to outcome. -/
structure CmdOutcome where
  exit_code : Int
  stdout : String
  stderr : String
deriving DecidableEq, Repr

/-- Separator line used in the combined log. -/
def eqLine : String := String.mk (List.replicate 50 '=')

/-- Shallow embedding of `VerificationAgent.verify`.  Runs each verification
command through the oracle, accumulates logs and parsed counts; if no counts
were parsed and every command exited 0, reports the (1, 0, 1) estimate.
Wall-clock duration is not modelled (fixed at 0). -/
def VerificationAgent.verify (runCmd : String → CmdOutcome) (sha16 : String → String)
    (plan : FixPlan) : VerificationResult :=
  let st := plan.verification_steps.foldl (fun acc cmd =>
    let (logs, success, tp, tf, tt, _) := acc
    let o := runCmd cmd
    let logs' := logs ++ "\n" ++ eqLine ++ "\nCMD: " ++ cmd ++ "\nEXIT CODE: " ++
      toString o.exit_code ++ "\n" ++ eqLine ++ "\n" ++ "STDOUT:\n" ++ o.stdout ++ "\n" ++
      (if o.stderr ≠ "" then "STDERR:\n" ++ o.stderr ++ "\n" else "")
    let pft := VerificationAgent.parse_test_output (o.stdout ++ o.stderr)
    (logs', success && decide (o.exit_code = 0), tp + pft.1, tf + pft.2.1, tt + pft.2.2,
      o.exit_code))
    (("", true, 0, 0, 0, 0) : String × Bool × Int × Int × Int × Int)
  let logs := st.1
  let success := st.2.1
  let tp := st.2.2.1
  let tf := st.2.2.2.1
  let tt := st.2.2.2.2.1
  let lec := st.2.2.2.2.2
  let est : Int × Int := if tt = 0 ∧ success then (1, 1) else (tt, tp)
  { success := success
    input_hash := FixPlan.content_hash sha16 plan
    output_log := logs
    duration_ms := 0
    tests_passed := est.2
    tests_failed := tf
    tests_total := est.1
    exit_code := lec }

/-! Blast radius (src/nightingale/analysis/blast_radius.py). -/

/-- CRITICAL path patterns. -/
def riskPatternsCritical : List String :=
  ["auth", "security", "password", "secret", "database", "migration", "deploy",
   ".env", "credentials"]

/-- HIGH path patterns. -/
def riskPatternsHigh : List String :=
  ["core/", "main.", "app.", "__init__.py", "base.", "models/"]

/-- MEDIUM path patterns. -/
def riskPatternsMedium : List String :=
  ["utils/", "helpers/", "tools/", "config.", "settings."]

/-- LOW path patterns (note the source lists these uppercase literals, which
are matched against the lowercased path). -/
def riskPatternsLow : List String :=
  ["test_", "_test.py", "tests/", "spec/", ".md", ".txt", ".rst",
   "README", "LICENSE", "CHANGELOG"]

/-- Shallow embedding of `BlastRadiusAnalyzer._classify_file_risk`: first
matching pattern scanning CRITICAL → LOW, default MEDIUM. -/
def classifyFileRisk (file_path : String) : RiskLevel :=
  let pl := lowerStr file_path
  if riskPatternsCritical.any (fun pat => containsStr pat pl) then RiskLevel.critical
  else if riskPatternsHigh.any (fun pat => containsStr pat pl) then RiskLevel.high
  else if riskPatternsMedium.any (fun pat => containsStr pat pl) then RiskLevel.medium
  else if riskPatternsLow.any (fun pat => containsStr pat pl) then RiskLevel.low
  else RiskLevel.medium

/-- Per-level score used by `_calculate_risk_modifier`. -/
def riskScore : RiskLevel → ℚ
  | RiskLevel.low => 1
  | RiskLevel.medium => 7/10
  | RiskLevel.high => 4/10
  | RiskLevel.critical => 1/10

/-- The fields of the dict returned by `BlastRadiusAnalyzer.analyze` that the
scorer consumes (`risk_levels` / `highest_risk` are computed by the source but
never read by the scorer).  Source name of `change_frac`: `ratio`. -/
structure BlastResult where
  files_changed : Nat
  change_frac : ℚ
  inverse_blast_radius : ℚ
  risk_modifier : ℚ
deriving DecidableEq, Repr

/-- Shallow embedding of `BlastRadiusAnalyzer.analyze`; the constructor's
`max(total_files, 1)` guard is applied to the denominator. -/
def BlastRadiusAnalyzer.analyze (total_files : Nat) (changes : List FileDiff) :
    BlastResult :=
  if changes.isEmpty then
    { files_changed := 0, change_frac := 0, inverse_blast_radius := 1, risk_modifier := 1 }
  else
    let tf : Nat := max total_files 1
    let fc := changes.length
    let frac : ℚ := (fc : ℚ) / (tf : ℚ)
    let risks := changes.map (fun c => classifyFileRisk c.file_path)
    { files_changed := fc
      change_frac := frac
      inverse_blast_radius := 1 - min frac 1
      risk_modifier := (risks.map riskScore).sum / (risks.length : ℚ) }

/-! Confidence scorer (src/nightingale/analysis/confidence.py, `ConfidenceScorer`). -/

/-- Attempt penalty table (`ATTEMPT_PENALTIES`, default 0.3). -/
def attemptPenaltyOf (n : Nat) : ℚ :=
  if n = 1 then 1 else if n = 2 then 7/10 else if n = 3 then 4/10 else 3/10

/-- Shallow embedding of `ConfidenceScorer.calculate`: the five factors and
the weighted score clamped to [0, 1]. -/
def ConfidenceScorer.calculate (total_files : Nat) (plan : FixPlan)
    (result : VerificationResult) (attempt_number : Nat) : ℚ × ConfidenceFactors :=
  let tpr := if result.success then VerificationResult.pass_rat result else 0
  let br := BlastRadiusAnalyzer.analyze total_files plan.files_to_change
  let factors : ConfidenceFactors :=
    { test_pass_rat := tpr
      inverse_blast_radius := br.inverse_blast_radius
      attempt_penalty := attemptPenaltyOf attempt_number
      risk_modifier := br.risk_modifier
      self_consistency_score := plan.confidence_score }
  (max 0 (min 1 (ConfidenceFactors.weighted_score factors)), factors)

/-! Concrete instances used by individual claims. -/

/-- A plan with an empty verification-command list (claim C6). -/
def c6emptyPlan : FixPlan :=
  { rationale := "r", files_to_change := [], verification_steps := [] }

/-- The verifier's result on the empty-command plan, with a trivial command
oracle (never consulted) and the identity standing in for the digest. -/
def c6result : VerificationResult :=
  VerificationAgent.verify (fun _ => { exit_code := 0, stdout := "", stderr := "" })
    (fun s => s) c6emptyPlan

/-- A unittest run whose reported failure count (5) exceeds the reported
`Ran 2 tests` count (claim C8). -/
def c8output : String := "Ran 2 tests in 0.010s\n\nFAILED (failures=5)"

/-- A plan with one verification command (claim C8). -/
def c8plan : FixPlan :=
  { rationale := "r", files_to_change := [], verification_steps := ["python -m unittest"] }

/-- The verifier's result when the single command prints `c8output` and exits 0. -/
def c8result : VerificationResult :=
  VerificationAgent.verify (fun _ => { exit_code := 0, stdout := c8output, stderr := "" })
    (fun s => s) c8plan

end Nightingale

namespace Nightingale

/-! Claim theorems. -/

/-- C1: for every incident (the orchestrator always passes the factors), the
resolution gate returns `resolve` iff the confidence score is at least the
configured resolve threshold, `test_pass_ratio ≥ 0.5`, and
`inverse_blast_radius ≥ 0.3`; in every other case it returns `escalate`. -/
theorem C1_resolution_gate (thr score : ℚ) (f : ConfidenceFactors) :
    (ResolutionEngine.decide thr score (some f) = Decision.resolve ↔
      (thr ≤ score ∧ 1/2 ≤ f.test_pass_rat ∧ 3/10 ≤ f.inverse_blast_radius)) ∧
    (ResolutionEngine.decide thr score (some f) = Decision.escalate ↔
      ¬ (thr ≤ score ∧ 1/2 ≤ f.test_pass_rat ∧ 3/10 ≤ f.inverse_blast_radius)) := by
  unfold ResolutionEngine.decide
  by_cases h1 : thr ≤ score <;> by_cases h2 : f.test_pass_rat < 1/2 <;>
    by_cases h3 : f.inverse_blast_radius < 3/10 <;>
    simp [h1, h2, h3, not_le, not_lt] <;> exact fun _ => le_of_not_lt h3

end Nightingale

namespace Nightingale

/-- C6 counterexample: on a plan with zero verification commands the verifier
returns counts (1, 0, 1), not (0, 0, 0), and the scorer computes
test_pass_ratio = 1, not 0, refuting the claim at this input. -/
theorem C6_counterexample :
    c6result.success = true ∧ c6result.tests_passed = 1 ∧
    c6result.tests_failed = 0 ∧ c6result.tests_total = 1 ∧
    (ConfidenceScorer.calculate 100 c6emptyPlan c6result 1).2.test_pass_rat = 1 := by
  have h1 : c6result.tests_total = 1 := rfl
  have h2 : c6result.tests_passed = 1 := rfl
  have hs : c6result.success = true := rfl
  refine ⟨hs, h2, rfl, h1, ?_⟩
  unfold ConfidenceScorer.calculate
  rw [hs]
  unfold VerificationResult.pass_rat
  rw [h1, h2]
  norm_num

/-- C6 (amended): for every plan whose verification-command list is empty, the
verifier returns success = true with counts (1, 0, 1) — the "no counts
recoverable and exit code zero" estimate — and the scorer then computes
test_pass_ratio = 1 for it. -/
theorem C6_empty_commands_amended (runCmd : String → CmdOutcome)
    (sha16 : String → String) (plan : FixPlan) (total_files att : Nat)
    (h : plan.verification_steps = []) :
    (VerificationAgent.verify runCmd sha16 plan).success = true ∧
    (VerificationAgent.verify runCmd sha16 plan).tests_passed = 1 ∧
    (VerificationAgent.verify runCmd sha16 plan).tests_failed = 0 ∧
    (VerificationAgent.verify runCmd sha16 plan).tests_total = 1 ∧
    (ConfidenceScorer.calculate total_files plan
      (VerificationAgent.verify runCmd sha16 plan) att).2.test_pass_rat = 1 := by
  unfold ConfidenceScorer.calculate VerificationResult.pass_rat VerificationAgent.verify
  rw [h]
  norm_num

/-- C6 witness: the amended statement applied to the concrete empty plan. -/
theorem C6_empty_commands_witness :
    (VerificationAgent.verify (fun _ => { exit_code := 0, stdout := "", stderr := "" })
      (fun s => s) c6emptyPlan).tests_passed = 1 :=
  (C6_empty_commands_amended _ _ c6emptyPlan 100 1 rfl).2.1

/-- C8: at the unittest output `Ran 2 tests ... FAILED (failures=5)` with exit
code 0, the parser computes passed = 2 - 5 = -3, so the verification result has
tests_passed = -3 out of tests_total = 2 and pass_ratio = -3/2 < 0, violating
the claimed invariant 0 ≤ pass_ratio ≤ 1. -/
theorem C8_pass_rat_negative :
    c8result.tests_passed = -3 ∧ c8result.tests_total = 2 ∧
    VerificationResult.pass_rat c8result < 0 := by
  have h1 : c8result.tests_passed = -3 := by decide
  have h2 : c8result.tests_total = 2 := by decide
  refine ⟨h1, h2, ?_⟩
  unfold VerificationResult.pass_rat
  rw [h1, h2]
  norm_num

end Nightingale

namespace Nightingale

/-! Response cache and LLM client (src/nightingale/core/gemini_client.py). -/

/-- Content of one cache file `<sha256-of-prompt>.json`. -/
structure CacheEntry where
  prompt_hash : String
  response : String
  cached_at : String
deriving DecidableEq, Repr

/-- Association-list update; writing a cache file replaces any previous file
with the same name. -/
def setAssoc {α β : Type} [DecidableEq α] : List (α × β) → α → β → List (α × β)
  | [], k, v => [(k, v)]
  | (k', v') :: rest, k, v =>
    if k' = k then (k, v) :: rest else (k', v') :: setAssoc rest k v

/-- Association-list lookup. -/
def getAssoc {α β : Type} [DecidableEq α] : List (α × β) → α → Option β
  | [], _ => none
  | (k', v') :: rest, k => if k' = k then some v' else getAssoc rest k

/-- State of the cache directory on disk plus the `enabled` flag. -/
structure CacheState where
  enabled : Bool
  files : List (String × CacheEntry)
deriving DecidableEq, Repr

/-- The prompt's key (`ResponseCache._key`): the SHA-256 hex digest of the
prompt, here the digest oracle `sha`. -/
def ResponseCache.key (sha : String → String) (prompt : String) : String := sha prompt

/-- Shallow embedding of `ResponseCache.put`; `now` stands for
`datetime.now().isoformat()`.  A no-op when writes are disabled. -/
def ResponseCache.put (sha : String → String) (now : String)
    (prompt response_text : String) (st : CacheState) : CacheState :=
  if st.enabled then
    let entry : CacheEntry :=
      { prompt_hash := ResponseCache.key sha prompt
        response := response_text
        cached_at := now }
    { st with files := setAssoc st.files (ResponseCache.key sha prompt ++ ".json") entry }
  else st

/-- Shallow embedding of `ResponseCache.get`: `None` when disabled or when the
file does not exist, else the `response` field of the stored JSON. -/
def ResponseCache.get (sha : String → String) (prompt : String) (st : CacheState) :
    Option String :=
  if st.enabled then
    match getAssoc st.files (ResponseCache.key sha prompt ++ ".json") with
    | some e => some e.response
    | none => none
  else none

/-- Shallow embedding of `GeminiClient.generate` with `record_mode = False`
and a reachable network oracle `net`: a cache hit short-circuits; on a miss
the network response is stored through `put` and returned.  Metrics and the
rate limiter do not touch the cache and are not modelled. -/
def GeminiClient.generate (sha : String → String) (net : String → String)
    (now : String) (prompt : String) (st : CacheState) : String × CacheState :=
  match ResponseCache.get sha prompt st with
  | some cached => (cached, st)
  | none =>
    let text := net prompt
    (text, ResponseCache.put sha now prompt text st)

/-- Code-fence cleaning done by `generate_structured` before JSON parsing. -/
def cleanResponse (raw : String) : String :=
  let c0 := (stripStr raw).toList
  let c1 := if isPrefixOfCl ("```json".toList) c0 then c0.drop 7 else c0
  let c2 := if isPrefixOfCl ("```".toList) c1 then c1.drop 3 else c1
  let c3 := if isPrefixOfCl ("```".toList) c2.reverse then (c2.reverse.drop 3).reverse else c2
  stripStr (String.mk c3)

/-- Corrective re-prompt after a JSON-parse failure. -/
def correctiveParsePrompt (schemaInstr errMsg : String) : String :=
  "Your previous response was not valid JSON. Error: " ++ errMsg ++ "\n\n" ++
  "You MUST output ONLY raw valid JSON matching this schema.\n" ++ schemaInstr

/-- Corrective re-prompt after a pydantic validation failure. -/
def correctiveValidPrompt (schemaInstr errMsg : String) : String :=
  "Your JSON was valid but fields were wrong. Error: " ++ errMsg ++ "\n\n" ++
  "Fix the fields and output ONLY valid JSON.\n" ++ schemaInstr

/-- Outcome of `generate_structured`: the validated payload, or the
`SchemaValidationError` raised after the retry budget. -/
inductive StructuredOutcome
  | ok (validated : String)
  | schemaError (msg : String)
deriving DecidableEq, Repr

/-- The retry loop of `GeminiClient.generate_structured`.  `parseErr` models
`json.loads` (`some msg` = `JSONDecodeError`), `validErr` models pydantic
validation of the parsed data.  On a failing attempt that still has budget the
source sets `cache.enabled = False`, builds the corrective prompt, then sets
`cache.enabled = True` — both assignments are reproduced here exactly as they
bracket the prompt construction in the source. -/
def GeminiClient.generateStructuredLoop (sha : String → String)
    (net : String → String) (now : String) (parseErr validErr : String → Option String)
    (schemaInstr : String) : Nat → String → CacheState → StructuredOutcome × CacheState
  | 0, _, st => (StructuredOutcome.schemaError ("Max validation retries exceeded"), st)
  | r + 1, prompt, st =>
    let g := GeminiClient.generate sha net now prompt st
    let cleaned := cleanResponse g.1
    match parseErr cleaned with
    | some e =>
      if r > 0 then
        let st2 : CacheState := { g.2 with enabled := false }
        let nextPrompt := correctiveParsePrompt schemaInstr e
        let st3 : CacheState := { st2 with enabled := true }
        GeminiClient.generateStructuredLoop sha net now parseErr validErr schemaInstr
          r nextPrompt st3
      else
        (StructuredOutcome.schemaError ("JSON parsing failed: " ++ e), g.2)
    | none =>
      match validErr cleaned with
      | some e =>
        if r > 0 then
          let st2 : CacheState := { g.2 with enabled := false }
          let nextPrompt := correctiveValidPrompt schemaInstr e
          let st3 : CacheState := { st2 with enabled := true }
          GeminiClient.generateStructuredLoop sha net now parseErr validErr schemaInstr
            r nextPrompt st3
        else
          (StructuredOutcome.schemaError ("Schema validation failed: " ++ e), g.2)
      | none => (StructuredOutcome.ok cleaned, g.2)

/-- Shallow embedding of `GeminiClient.generate_structured`: append the schema
instruction block and run the validation-retry loop
(`max_validation_retries` defaults to 3). -/
def GeminiClient.generate_structured (sha : String → String) (net : String → String)
    (now : String) (parseErr validErr : String → Option String) (schemaInstr : String)
    (prompt : String) (maxValidationRetries : Nat) (st : CacheState) :
    StructuredOutcome × CacheState :=
  GeminiClient.generateStructuredLoop sha net now parseErr validErr schemaInstr
    maxValidationRetries (prompt ++ "\n\n" ++ schemaInstr) st

/-- The corrective prompt arising in the C5 scenario. -/
def c5corrective : String := correctiveParsePrompt ("S") ("boom")

/-- The C5 scenario: caching enabled and empty, schema instruction `S`, base
prompt `P`; the network returns unparseable text for the first structured
prompt and a parseable object for every other prompt. -/
def c5run : StructuredOutcome × CacheState :=
  GeminiClient.generate_structured (fun s => s)
    (fun p => if p = "P\n\nS" then "bad" else "{}") ("t")
    (fun s => if s = "bad" then some ("boom") else none) (fun _ => none) ("S") ("P") 3
    { enabled := true, files := [] }

end Nightingale

namespace Nightingale

/-- Lemma: looking up the key just written into an association list returns
the written value. -/
theorem getAssoc_setAssoc_self {α β : Type} [DecidableEq α]
    (l : List (α × β)) (k : α) (v : β) : getAssoc (setAssoc l k v) k = some v := by
  induction l with
  | nil => simp [setAssoc, getAssoc]
  | cons hd tl ih =>
    obtain ⟨k', v'⟩ := hd
    by_cases hk : k' = k <;> simp [setAssoc, getAssoc, hk, ih]

/-- C9: with caching enabled, `cache.get(P)` after `cache.put(P, R)` returns R,
and the cache file named `sha256(P).json` holds R in its `response` field
(together with the prompt hash and the write timestamp). -/
theorem C9_cache_roundtrip (sha : String → String) (now P R : String)
    (st : CacheState) (h : st.enabled = true) :
    ResponseCache.get sha P (ResponseCache.put sha now P R st) = some R ∧
    getAssoc (ResponseCache.put sha now P R st).files
        (ResponseCache.key sha P ++ ".json") =
      some { prompt_hash := ResponseCache.key sha P, response := R, cached_at := now } := by
  unfold ResponseCache.get ResponseCache.put
  rw [h]
  simp [getAssoc_setAssoc_self]

/-- C9 witness: the round trip at a concrete prompt and response with the
identity digest and an initially empty, enabled cache. -/
theorem C9_cache_roundtrip_witness :
    ResponseCache.get (fun s => s) ("p")
      (ResponseCache.put (fun s => s) ("t") ("p") ("r")
        { enabled := true, files := [] }) = some ("r") :=
  (C9_cache_roundtrip (fun s => s) ("t") ("p") ("r") { enabled := true, files := [] } rfl).1

/-- C5: after the JSON-parse failure of the first structured response, the
source re-enables cache writes before re-running `generate`, so the retried
call stores its response: the final cache state is enabled and contains an
entry for the corrective re-prompt holding the retry's response — refuting
the claim that writes stay disabled for the whole retried call. -/
theorem C5_retry_response_is_cached :
    (c5run.2).enabled = true ∧
    getAssoc (c5run.2).files (c5corrective ++ ".json") =
      some { prompt_hash := c5corrective, response := "{}", cached_at := "t" } ∧
    c5run.1 = StructuredOutcome.ok ("{}") := by
  refine ⟨rfl, ?_, rfl⟩
  rfl

/-- C10: a plan's content fingerprint is a function of its file-change list
alone — two plans with equal `files_to_change` have equal `content_hash`
whatever their other fields — and the verifier stores exactly that
fingerprint in the result's `input_hash`. -/
theorem C10_content_hash_files_only (sha16 : String → String) (p1 p2 : FixPlan)
    (h : p1.files_to_change = p2.files_to_change) :
    FixPlan.content_hash sha16 p1 = FixPlan.content_hash sha16 p2 ∧
    ∀ runCmd, (VerificationAgent.verify runCmd sha16 p1).input_hash =
      FixPlan.content_hash sha16 p1 := by
  constructor
  · unfold FixPlan.content_hash
    rw [h]
  · intro runCmd
    unfold VerificationAgent.verify
    simp

/-- C10 witness: two concrete plans sharing one file change but differing in
rationale, root cause, commands, confidence, risk and attempt number. -/
theorem C10_content_hash_files_only_witness :
    FixPlan.content_hash (fun s => s)
      { rationale := "a", root_cause := "x",
        files_to_change := [{ file_path := "m.py", change_type := ChangeType.modify,
                              diff_content := "pass" }],
        verification_steps := ["pytest"], confidence_score := 1/2,
        risk_level := RiskLevel.low, attempt_number := 1 } =
    FixPlan.content_hash (fun s => s)
      { rationale := "b", root_cause := "y",
        files_to_change := [{ file_path := "m.py", change_type := ChangeType.modify,
                              diff_content := "pass" }],
        verification_steps := [], confidence_score := 9/10,
        risk_level := RiskLevel.high, attempt_number := 2 } :=
  (C10_content_hash_files_only (fun s => s) _ _ rfl).1

end Nightingale

namespace Nightingale

/-! Paths and the filesystem (src/nightingale/core/sandbox.py,
src/nightingale/core/orchestrator.py). -/

/-- Split a character list at `/` boundaries. -/
def splitSlashAux : List Char → List Char → List (List Char)
  | [], acc => [acc.reverse]
  | c :: rest, acc =>
    if c = '/' then acc.reverse :: splitSlashAux rest []
    else splitSlashAux rest (c :: acc)

/-- Components of a POSIX path string (empty segments discarded). -/
def splitPath (s : String) : List String :=
  ((splitSlashAux s.toList []).map (fun l => String.mk l)).filter (fun x => x ≠ "")

/-- Python `os.path.isabs` on POSIX. -/
def isAbsPath (s : String) : Bool := isPrefixOfCl ("/".toList) s.toList

/-- OS-level resolution of `.` and `..` components, as the kernel performs it
when the joined path is opened or created. -/
def resolveStack (cs : List String) : List String :=
  cs.foldl (fun acc c =>
    if c = "." then acc
    else if c = ".." then acc.dropLast
    else acc ++ [c]) []

/-- Resolved absolute target of `os.path.join(base, rel)` for an absolute
`base`: a leading `/` in `rel` discards the base (Python join semantics). -/
def resolvePath (base : List String) (rel : String) : List String :=
  if isAbsPath rel then resolveStack (splitPath rel)
  else resolveStack (base ++ splitPath rel)

/-- Boolean prefix test on lists with decidable equality. -/
def isPrefixOfL {α : Type} [DecidableEq α] : List α → List α → Bool
  | [], _ => true
  | _ :: _, [] => false
  | a :: as, b :: bs => if a = b then isPrefixOfL as bs else false

/-- True when path `p` lies inside directory `root`. -/
def isUnderPath (p root : List String) : Bool := isPrefixOfL root p

/-- Global filesystem: resolved absolute path → file content. -/
structure Fs where
  files : List (List String × String)
deriving DecidableEq, Repr

/-- Write (create or overwrite) a file. -/
def fsWrite (fs : Fs) (p : List String) (content : String) : Fs :=
  { files := setAssoc fs.files p content }

/-- Look a file up. -/
def fsLookup (fs : Fs) (p : List String) : Option String := getAssoc fs.files p

/-- Remove one file. -/
def fsRemove (fs : Fs) (p : List String) : Fs :=
  { files := fs.files.filter (fun kv => kv.1 ≠ p) }

/-- Remove a whole directory tree (`shutil.rmtree`). -/
def fsRemoveUnder (fs : Fs) (root : List String) : Fs :=
  { files := fs.files.filter (fun kv => !(isUnderPath kv.1 root)) }

/-- Python `str.endswith`. -/
def endsWithStr (suf s : String) : Bool := isPrefixOfCl suf.toList.reverse s.toList.reverse

/-- The copy/hash ignore set of the sandbox:
`.git`, `.sandbox`, `__pycache__`, `.nightingale_cache`, `*.pyc`. -/
def ignoredComponent (c : String) : Bool :=
  c = ".git" || c = ".sandbox" || c = "__pycache__" || c = ".nightingale_cache" ||
    endsWithStr (".pyc") c

/-- A repo-relative path is ignored when any of its components is. -/
def ignoredRel (rel : List String) : Bool := rel.any ignoredComponent

/-- Shallow embedding of `Sandbox.setup`: the hash snapshot is a pure
computation (not modelled); any prior sandbox content is removed and the
original tree, minus the ignore set, is copied below the sandbox path. -/
def Sandbox.setup (repoRoot sandboxPath : List String) (fs : Fs) : Fs :=
  let cleared := fsRemoveUnder fs sandboxPath
  let src := fs.files.filter (fun kv =>
    isUnderPath kv.1 repoRoot && !(ignoredRel (kv.1.drop repoRoot.length)))
  src.foldl (fun acc kv => fsWrite acc (sandboxPath ++ kv.1.drop repoRoot.length) kv.2) cleared

/-- Shallow embedding of `Sandbox.apply_diffs`.  The source performs no
containment check and raises no error: every change is written at (or removed
from) the OS-resolved target of `os.path.join(sandbox_path, file_path)`,
wherever that target lands. -/
def Sandbox.apply_diffs (sandboxPath : List String) (diffs : List FileDiff) (fs : Fs) : Fs :=
  diffs.foldl (fun acc d =>
    let p := resolvePath sandboxPath d.file_path
    match d.change_type with
    | ChangeType.modify => fsWrite acc p d.diff_content
    | ChangeType.add => fsWrite acc p d.diff_content
    | ChangeType.delete =>
      if (fsLookup acc p).isSome then fsRemove acc p else acc) fs

/-- Shallow embedding of `Sandbox.cleanup`: `verify_original_unchanged` is a
pure comparison; then the sandbox directory is removed. -/
def Sandbox.cleanup (sandboxPath : List String) (fs : Fs) : Fs :=
  fsRemoveUnder fs sandboxPath

/-- Shallow embedding of `Orchestrator._apply_fix_to_repo`: the same write
rules as the sandbox apply, but resolved against the incident's repository
root (the working tree). -/
def Orchestrator.apply_fix_to_repo (repoRoot : List String) (plan : FixPlan) (fs : Fs) : Fs :=
  plan.files_to_change.foldl (fun acc d =>
    let p := resolvePath repoRoot d.file_path
    match d.change_type with
    | ChangeType.modify => fsWrite acc p d.diff_content
    | ChangeType.add => fsWrite acc p d.diff_content
    | ChangeType.delete =>
      if (fsLookup acc p).isSome then fsRemove acc p else acc) fs

/-! Reflective reasoning loop (src/nightingale/agents/marathon.py). -/

/-- Errors raised by `MarathonAgent.analyze` through the LLM client. -/
inductive AgentError
  | quotaExhausted (msg : String)
  | clientError (msg : String)
deriving DecidableEq, Repr

/-- Python `str(e)` on the raised error. -/
def AgentError.message : AgentError → String
  | AgentError.quotaExhausted m => m
  | AgentError.clientError m => m

/-- MarathonAgent.MAX_ATTEMPTS. -/
def MarathonAgent.MAX_ATTEMPTS : Nat := 3

/-- Shallow embedding of the body of `ReflectiveReasoningLoop.run`, generic in
the verification state `σ`.  `gen n prevFail prevPlan` models
`agent.analyze(...)` for attempt `n` (its outcome is oracle-determined by the
attempt number and the reflection context).  Any exception from `analyze` —
including `QuotaExhaustedError`, a subclass of `Exception` — is caught by the
loop's blanket `except Exception`: the record's `failure_reason` is set and
the loop continues with the next attempt. -/
def ReflectiveReasoningLoop.runAux {σ : Type}
    (gen : Nat → Option String → Option FixPlan → Except AgentError FixPlan)
    (verify : FixPlan → σ → FixPlan × VerificationResult × σ) :
    Nat → Nat → Option String → Option FixPlan → List AttemptRecord → σ →
    Option FixPlan × List AttemptRecord × σ
  | 0, _, _, _, acc, st => (none, acc, st)
  | r + 1, n, prevFail, prevPlan, acc, st =>
    match gen n prevFail prevPlan with
    | Except.error e =>
      ReflectiveReasoningLoop.runAux gen verify r (n + 1)
        (some (AgentError.message e)) prevPlan
        (acc ++ [{ attempt_number := n, failure_reason := some (AgentError.message e) }]) st
    | Except.ok plan =>
      let v := verify plan st
      if (v.2.1).success then
        (some v.1,
         acc ++ [{ attempt_number := n, fix_plan := some v.1,
                   verification_result := some v.2.1 }],
         v.2.2)
      else
        ReflectiveReasoningLoop.runAux gen verify r (n + 1)
          (some (v.2.1).output_log) (some v.1)
          (acc ++ [{ attempt_number := n, fix_plan := some v.1,
                     verification_result := some v.2.1,
                     failure_reason := some ("Verification failed") }]) (v.2.2)

/-- Shallow embedding of `ReflectiveReasoningLoop.run`: up to `MAX_ATTEMPTS`
attempts starting at 1 with no reflection context. -/
def ReflectiveReasoningLoop.run {σ : Type}
    (gen : Nat → Option String → Option FixPlan → Except AgentError FixPlan)
    (verify : FixPlan → σ → FixPlan × VerificationResult × σ) (st : σ) :
    Option FixPlan × List AttemptRecord × σ :=
  ReflectiveReasoningLoop.runAux gen verify MarathonAgent.MAX_ATTEMPTS 1 none none [] st

/-! Orchestrator (src/nightingale/core/orchestrator.py). -/

/-- Shallow embedding of the orchestrator's `verify_callback`: reset the
sandbox, overwrite the plan's `verification_steps` with the workflow-derived
test commands when that list is non-empty (the source mutates the plan object
in place — the returned plan is the object the loop and records keep), apply
the plan's changes to the sandbox tree, and run the verifier. -/
def Orchestrator.verify_callback (repoRoot sandboxPath : List String)
    (test_commands : List String) (runCmd : String → CmdOutcome)
    (sha16 : String → String) (plan : FixPlan) (fs : Fs) :
    FixPlan × VerificationResult × Fs :=
  let fs1 := Sandbox.setup repoRoot sandboxPath fs
  let plan1 :=
    if test_commands ≠ [] then { plan with verification_steps := test_commands } else plan
  let fs2 := Sandbox.apply_diffs sandboxPath plan1.files_to_change fs1
  (plan1, VerificationAgent.verify runCmd sha16 plan1, fs2)

/-- Static configuration of one `process_incident` run.  `sandbox_dir` and
`cleanup_sandbox` take their defaults (`.sandbox`, true) from the
configuration, per the spec's CLI-surface section. -/
structure OrchestratorEnv where
  repoRoot : List String
  sandboxId : String
  total_files : Nat
  test_commands : List String
  resolve_threshold : ℚ := 85/100
  cleanup_sandbox : Bool := true

/-- The sandbox path `<repo>/.sandbox/<sandbox_id>`. -/
def OrchestratorEnv.sandboxPath (env : OrchestratorEnv) : List String :=
  env.repoRoot ++ [".sandbox", env.sandboxId]

/-- Everything `process_incident` produces that the claims speak about. -/
structure PipelineOutcome where
  decision : Decision
  final_plan : Option FixPlan
  attempts : List AttemptRecord
  confidence : ℚ
  factors : ConfidenceFactors
  fs : Fs

/-- Shallow embedding of `Orchestrator.process_incident` (metrics, logging and
report rendering are output-only and omitted): run the reflective loop with
the sandbox-backed verify callback, clean the sandbox up, score the winning
plan (zero score and default factors when there is none — also the
quota-exhausted path), decide, and only on `resolve` with a plan apply the
plan to the working tree. -/
def Orchestrator.process_incident (env : OrchestratorEnv)
    (gen : Nat → Option String → Option FixPlan → Except AgentError FixPlan)
    (runCmd : String → CmdOutcome) (sha16 : String → String) (fs : Fs) :
    PipelineOutcome :=
  let sp := OrchestratorEnv.sandboxPath env
  let loopOut := ReflectiveReasoningLoop.run gen
    (Orchestrator.verify_callback env.repoRoot sp env.test_commands runCmd sha16) fs
  let final_plan := loopOut.1
  let attempts := loopOut.2.1
  let fs2 := if env.cleanup_sandbox then Sandbox.cleanup sp loopOut.2.2 else loopOut.2.2
  let final_result : Option VerificationResult :=
    match final_plan, attempts.getLast? with
    | some _, some r => r.verification_result
    | _, _ => none
  let cf : ℚ × ConfidenceFactors :=
    match final_plan, final_result with
    | some p, some r => ConfidenceScorer.calculate env.total_files p r p.attempt_number
    | _, _ => (0, {})
  let decision := ResolutionEngine.decide env.resolve_threshold cf.1 (some cf.2)
  let fs3 :=
    match final_plan, decision with
    | some p, Decision.resolve => Orchestrator.apply_fix_to_repo env.repoRoot p fs2
    | _, _ => fs2
  { decision := decision, final_plan := final_plan, attempts := attempts,
    confidence := cf.1, factors := cf.2, fs := fs3 }

/-- The working repository content: the files outside the repo's `.sandbox`
subtree (the integrity hash ignores that subtree and the caches). -/
def workingTree (env : OrchestratorEnv) (fs : Fs) : List (List String × String) :=
  fs.files.filter (fun kv => !(isUnderPath kv.1 (env.repoRoot ++ [".sandbox"])))

end Nightingale

namespace Nightingale

/-- A file change that climbs out of the sandbox (claims C3 and C2). -/
def escapeDiff : FileDiff :=
  { file_path := "../../escape.txt", change_type := ChangeType.add, diff_content := "x" }

/-- A concrete sandbox path `repo/.sandbox/sb1`. -/
def c3sandboxPath : List String := ["repo", ".sandbox", "sb1"]

/-- A plan carrying the escaping change (claim C2). -/
def c2escapePlan : FixPlan :=
  { rationale := "evil", files_to_change := [escapeDiff], verification_steps := ["t"] }

/-- Concrete orchestrator configuration shared by the C2 and C4 runs. -/
def c2env : OrchestratorEnv :=
  { repoRoot := ["repo"], sandboxId := "sb1", total_files := 5, test_commands := ["t"] }

/-- The initial working tree of the C2 and C4 runs. -/
def c2fs0 : Fs := { files := [(["repo", "a.py"], "a = 1\n")] }

/-- A command oracle whose single command always fails. -/
def failCmd : String → CmdOutcome := fun _ => { exit_code := 1, stdout := "", stderr := "" }

/-- The C2 run: every attempt proposes the escaping plan, verification always
fails, so the pipeline escalates. -/
def c2out : PipelineOutcome :=
  Orchestrator.process_incident c2env (fun _ _ _ => Except.ok c2escapePlan) failCmd
    (fun s => s) c2fs0

/-- A generator that raises `QuotaExhaustedError` on every attempt (claim C4). -/
def c4gen : Nat → Option String → Option FixPlan → Except AgentError FixPlan :=
  fun _ _ _ => Except.error (AgentError.quotaExhausted ("API quota exhausted after 3 retries"))

/-- The C4 run: quota exhaustion from the first attempt on. -/
def c4out : PipelineOutcome :=
  Orchestrator.process_incident c2env c4gen failCmd (fun s => s) c2fs0

/-- Plan whose own verification commands differ from the workflow-derived
ones (claim C7). -/
def c7plan : FixPlan :=
  { rationale := "fix", root_cause := "rc",
    files_to_change := [{ file_path := "m.py", change_type := ChangeType.modify,
                          diff_content := "pass" }],
    verification_steps := ["old cmd"] }

/-- The C7 run of the orchestrator's verify callback. -/
def c7out : FixPlan × VerificationResult × Fs :=
  Orchestrator.verify_callback ["repo"] c3sandboxPath ["pytest"]
    (fun _ => { exit_code := 0, stdout := "", stderr := "" }) (fun s => s) c7plan
    { files := [] }

end Nightingale

namespace Nightingale

/-- C3: the sandbox apply performs no containment check: the change whose
`file_path` is `../../escape.txt` resolves to `repo/escape.txt`, outside the
sandbox `repo/.sandbox/sb1`, and `apply_diffs` writes it there instead of
failing with a sandbox error (the embedding is a total function — the source
has no error path in `apply_diffs`). -/
theorem C3_path_escape_written_outside :
    resolvePath c3sandboxPath (FileDiff.file_path escapeDiff) = ["repo", "escape.txt"] ∧
    isUnderPath (resolvePath c3sandboxPath (FileDiff.file_path escapeDiff))
      c3sandboxPath = false ∧
    fsLookup (Sandbox.apply_diffs c3sandboxPath [escapeDiff] { files := [] })
      ["repo", "escape.txt"] = some ("x") := by
  refine ⟨by decide, by decide, by decide⟩

/-- C4: when the LLM raises QuotaExhausted at attempt 1, the loop's blanket
`except Exception` swallows it: attempts 2 and 3 are still performed, three
records carrying the quota message are returned, nothing propagates to the
orchestrator's QuotaExhausted handler, and the pipeline then scores zero and
escalates only because no plan exists. -/
theorem C4_quota_not_propagated :
    c4out.final_plan = none ∧
    List.map (fun r => AttemptRecord.attempt_number r) c4out.attempts = [1, 2, 3] ∧
    List.map (fun r => AttemptRecord.failure_reason r) c4out.attempts =
      [some ("API quota exhausted after 3 retries"),
       some ("API quota exhausted after 3 retries"),
       some ("API quota exhausted after 3 retries")] ∧
    c4out.confidence = 0 ∧
    c4out.decision = Decision.escalate := by
  refine ⟨rfl, by decide, by decide, rfl, ?_⟩
  have hd : c4out.decision = ResolutionEngine.decide (85/100) 0 (some {}) := rfl
  rw [hd]
  norm_num [ResolutionEngine.decide]

/-- C7 counterexample: the verify callback returns the plan with its
`verification_steps` replaced by the workflow commands — the FixPlan is not
immutable. -/
theorem C7_counterexample :
    FixPlan.verification_steps (c7out.1) = ["pytest"] ∧
    FixPlan.verification_steps (c7out.1) ≠ FixPlan.verification_steps c7plan := by
  refine ⟨by decide, by decide⟩

/-- C7 (amended): the only mutation any pipeline operation performs on a plan
is the verify callback overwriting `verification_steps` with the
workflow-derived test commands when that list is non-empty; every other field
of the returned plan equals the input plan's. -/
theorem C7_plan_mutation_only_steps (repoRoot sandboxPath : List String)
    (test_commands : List String) (runCmd : String → CmdOutcome)
    (sha16 : String → String) (plan : FixPlan) (fs : Fs) :
    (Orchestrator.verify_callback repoRoot sandboxPath test_commands runCmd sha16
        plan fs).1 =
      { plan with verification_steps :=
          if test_commands = [] then plan.verification_steps else test_commands } := by
  unfold Orchestrator.verify_callback
  by_cases h : test_commands = [] <;> simp [h]

end Nightingale

namespace Nightingale

/-- Writing at a key the filter drops leaves the filtered list unchanged. -/
theorem filter_setAssoc_of_dropped {α β : Type} [DecidableEq α] (p : α → Bool)
    (l : List (α × β)) (k : α) (v : β) (hk : p k = false) :
    (setAssoc l k v).filter (fun kv => p kv.1) = l.filter (fun kv => p kv.1) := by
  induction l with
  | nil => simp [setAssoc, List.filter, hk]
  | cons hd tl ih =>
    obtain ⟨k', v'⟩ := hd
    by_cases h : k' = k
    · subst h
      simp [setAssoc, List.filter, hk]
    · simp [setAssoc, h, List.filter, ih]

/-- Pre-filtering by a weaker predicate does not change a stronger filter. -/
theorem filter_subfilter {α β : Type} (p q : α → Bool) (l : List (α × β))
    (h : ∀ k, p k = true → q k = true) :
    (l.filter (fun kv => q kv.1)).filter (fun kv => p kv.1) =
      l.filter (fun kv => p kv.1) := by
  induction l with
  | nil => simp
  | cons hd tl ih =>
    by_cases hq : q hd.1 = true
    · simp [List.filter, hq, ih]
    · have hp : p hd.1 = false := by
        cases hp' : p hd.1
        · rfl
        · exact absurd (h hd.1 hp') hq
      simp [List.filter, hq, hp, ih]

/-- A list is a prefix of itself extended. -/
theorem isPrefixOfL_self_append {α : Type} [DecidableEq α] (xs ys : List α) :
    isPrefixOfL xs (xs ++ ys) = true := by
  induction xs with
  | nil => rfl
  | cons a as ih => simp [isPrefixOfL, ih]

/-- A prefix of a prefix: dropping a tail of the pattern keeps it a prefix. -/
theorem isPrefixOfL_of_append {α : Type} [DecidableEq α] (xs ys zs : List α)
    (h : isPrefixOfL (xs ++ ys) zs = true) : isPrefixOfL xs zs = true := by
  induction xs generalizing zs with
  | nil => rfl
  | cons a as ih =>
    cases zs with
    | nil => simp [isPrefixOfL] at h
    | cons b bs =>
      simp only [List.cons_append, isPrefixOfL] at h ⊢
      by_cases hab : a = b
      · simp only [if_pos hab] at h ⊢
        exact ih bs h
      · simp [if_neg hab] at h

/-- Everything under the sandbox path is under the repo's `.sandbox` base. -/
theorem under_sandbox_of_under_sp (env : OrchestratorEnv) (k : List String)
    (h : isUnderPath k (OrchestratorEnv.sandboxPath env) = true) :
    isUnderPath k (env.repoRoot ++ [".sandbox"]) = true := by
  unfold isUnderPath at h ⊢
  unfold OrchestratorEnv.sandboxPath at h
  have : env.repoRoot ++ [".sandbox", env.sandboxId] =
      (env.repoRoot ++ [".sandbox"]) ++ [env.sandboxId] := by simp
  rw [this] at h
  exact isPrefixOfL_of_append _ _ _ h

/-- A write below the sandbox path is invisible to the working tree. -/
theorem workingTree_fsWrite (env : OrchestratorEnv) (fs : Fs) (p : List String)
    (c : String) (h : isUnderPath p (OrchestratorEnv.sandboxPath env) = true) :
    workingTree env (fsWrite fs p c) = workingTree env fs := by
  unfold workingTree fsWrite
  have h2 : isUnderPath p (env.repoRoot ++ [".sandbox"]) = true :=
    under_sandbox_of_under_sp env p h
  exact filter_setAssoc_of_dropped
    (fun k => !isUnderPath k (env.repoRoot ++ [".sandbox"])) fs.files p c
    (by show (!isUnderPath p (env.repoRoot ++ [".sandbox"])) = false; rw [h2]; rfl)

/-- Removing a file below the sandbox path is invisible to the working tree. -/
theorem workingTree_fsRemove (env : OrchestratorEnv) (fs : Fs) (p : List String)
    (h : isUnderPath p (OrchestratorEnv.sandboxPath env) = true) :
    workingTree env (fsRemove fs p) = workingTree env fs := by
  unfold workingTree fsRemove
  refine filter_subfilter (fun k => !isUnderPath k (env.repoRoot ++ [".sandbox"]))
    (fun k => decide (k ≠ p)) fs.files ?_
  intro k hk
  show decide (k ≠ p) = true
  have hk' : (!isUnderPath k (env.repoRoot ++ [".sandbox"])) = true := hk
  by_cases hkp : k = p
  · subst hkp
    rw [under_sandbox_of_under_sp env k h] at hk'
    simp at hk'
  · simp [hkp]

/-- Removing the whole sandbox subtree is invisible to the working tree. -/
theorem workingTree_fsRemoveUnder (env : OrchestratorEnv) (fs : Fs)
    (root : List String)
    (h : ∀ k, isUnderPath k root = true →
      isUnderPath k (env.repoRoot ++ [".sandbox"]) = true) :
    workingTree env (fsRemoveUnder fs root) = workingTree env fs := by
  unfold workingTree fsRemoveUnder
  refine filter_subfilter (fun k => !isUnderPath k (env.repoRoot ++ [".sandbox"]))
    (fun k => !isUnderPath k root) fs.files ?_
  intro k hk
  show (!isUnderPath k root) = true
  have hk' : (!isUnderPath k (env.repoRoot ++ [".sandbox"])) = true := hk
  cases hu : isUnderPath k root
  · simp [hu]
  · rw [h k hu] at hk'
    simp at hk'

/-- `Sandbox.setup` touches only the sandbox subtree. -/
theorem workingTree_setup (env : OrchestratorEnv) (fs : Fs) :
    workingTree env
      (Sandbox.setup env.repoRoot (OrchestratorEnv.sandboxPath env) fs) =
      workingTree env fs := by
  unfold Sandbox.setup
  have hcleared : workingTree env (fsRemoveUnder fs (OrchestratorEnv.sandboxPath env)) =
      workingTree env fs :=
    workingTree_fsRemoveUnder env fs _ (fun k hk => under_sandbox_of_under_sp env k hk)
  rw [← hcleared]
  generalize fsRemoveUnder fs (OrchestratorEnv.sandboxPath env) = acc
  generalize (fs.files.filter _) = src
  induction src generalizing acc with
  | nil => rfl
  | cons kv rest ih =>
    rw [List.foldl_cons]
    rw [ih (fsWrite acc (OrchestratorEnv.sandboxPath env ++ kv.1.drop env.repoRoot.length) kv.2)]
    exact workingTree_fsWrite env acc _ _
      (by unfold isUnderPath; exact isPrefixOfL_self_append _ _)

/-- `Sandbox.apply_diffs` with in-sandbox targets touches only the sandbox
subtree. -/
theorem workingTree_apply_diffs (env : OrchestratorEnv) (diffs : List FileDiff)
    (fs : Fs)
    (h : ∀ d ∈ diffs, isUnderPath
      (resolvePath (OrchestratorEnv.sandboxPath env) d.file_path)
      (OrchestratorEnv.sandboxPath env) = true) :
    workingTree env (Sandbox.apply_diffs (OrchestratorEnv.sandboxPath env) diffs fs) =
      workingTree env fs := by
  unfold Sandbox.apply_diffs
  induction diffs generalizing fs with
  | nil => rfl
  | cons d rest ih =>
    rw [List.foldl_cons]
    have hd := h d (List.mem_cons_self d rest)
    have hrest : ∀ x ∈ rest, isUnderPath
        (resolvePath (OrchestratorEnv.sandboxPath env) x.file_path)
        (OrchestratorEnv.sandboxPath env) = true :=
      fun x hx => h x (List.mem_cons_of_mem d hx)
    rw [ih _ hrest]
    cases hct : d.change_type <;> simp only [hct]
    · exact workingTree_fsWrite env fs _ _ hd
    · exact workingTree_fsWrite env fs _ _ hd
    · by_cases hex : (fsLookup fs (resolvePath (OrchestratorEnv.sandboxPath env) d.file_path)).isSome
      · simp only [hex, if_pos]
        exact workingTree_fsRemove env fs _ hd
      · simp only [hex]
        simp

/-- The verify callback touches only the sandbox subtree when every change of
the plan resolves inside the sandbox. -/
theorem workingTree_verify_callback (env : OrchestratorEnv)
    (tc : List String) (runCmd : String → CmdOutcome) (sha16 : String → String)
    (plan : FixPlan) (fs : Fs)
    (h : ∀ d ∈ plan.files_to_change, isUnderPath
      (resolvePath (OrchestratorEnv.sandboxPath env) d.file_path)
      (OrchestratorEnv.sandboxPath env) = true) :
    workingTree env
      ((Orchestrator.verify_callback env.repoRoot (OrchestratorEnv.sandboxPath env)
        tc runCmd sha16 plan fs).2.2) = workingTree env fs := by
  unfold Orchestrator.verify_callback
  have hfiles : (if tc ≠ [] then { plan with verification_steps := tc }
      else plan).files_to_change = plan.files_to_change := by
    by_cases htc : tc = [] <;> simp [htc]
  simp only []
  rw [hfiles]
  rw [workingTree_apply_diffs env plan.files_to_change _ h]
  exact workingTree_setup env fs

/-- The reflective loop touches only the sandbox subtree when every generated
plan's changes resolve inside the sandbox. -/
theorem workingTree_runAux (env : OrchestratorEnv)
    (gen : Nat → Option String → Option FixPlan → Except AgentError FixPlan)
    (tc : List String) (runCmd : String → CmdOutcome) (sha16 : String → String)
    (hgen : ∀ n pf pp plan, gen n pf pp = Except.ok plan →
      ∀ d ∈ plan.files_to_change, isUnderPath
        (resolvePath (OrchestratorEnv.sandboxPath env) d.file_path)
        (OrchestratorEnv.sandboxPath env) = true) :
    ∀ (r n : Nat) (pf : Option String) (pp : Option FixPlan)
      (acc : List AttemptRecord) (fs : Fs),
      workingTree env ((ReflectiveReasoningLoop.runAux gen
        (Orchestrator.verify_callback env.repoRoot (OrchestratorEnv.sandboxPath env)
          tc runCmd sha16) r n pf pp acc fs).2.2) = workingTree env fs := by
  intro r
  induction r with
  | zero => intro n pf pp acc fs; rfl
  | succ r ih =>
    intro n pf pp acc fs
    unfold ReflectiveReasoningLoop.runAux
    cases hg : gen n pf pp with
    | error e => exact ih _ _ _ _ fs
    | ok plan =>
      simp only []
      have hplan := hgen n pf pp plan hg
      by_cases hs : ((Orchestrator.verify_callback env.repoRoot
          (OrchestratorEnv.sandboxPath env) tc runCmd sha16 plan fs).2.1).success = true
      · simp only [hs, if_pos]
        exact workingTree_verify_callback env tc runCmd sha16 plan fs hplan
      · simp only [Bool.not_eq_true] at hs
        simp only [hs, Bool.false_eq_true, if_false]
        rw [ih _ _ _ _ _]
        exact workingTree_verify_callback env tc runCmd sha16 plan fs hplan

end Nightingale

namespace Nightingale

/-- `Sandbox.cleanup` touches only the sandbox subtree. -/
theorem workingTree_cleanup (env : OrchestratorEnv) (fs : Fs) :
    workingTree env (Sandbox.cleanup (OrchestratorEnv.sandboxPath env) fs) =
      workingTree env fs := by
  unfold Sandbox.cleanup
  exact workingTree_fsRemoveUnder env fs _ (fun k hk => under_sandbox_of_under_sp env k hk)

/-- C2 counterexample: with a plan whose file change escapes the sandbox
(`../../escape.txt`), the pipeline decides escalate — all verifications fail —
yet `repo/escape.txt` has been written into the working tree by the sandbox
apply during verification. -/
theorem C2_counterexample :
    c2out.decision = Decision.escalate ∧
    fsLookup c2fs0 ["repo", "escape.txt"] = none ∧
    fsLookup (PipelineOutcome.fs c2out) ["repo", "escape.txt"] = some ("x") := by
  refine ⟨?_, rfl, by decide⟩
  have hd : c2out.decision = ResolutionEngine.decide (85/100) 0 (some {}) := rfl
  rw [hd]
  norm_num [ResolutionEngine.decide]

/-- C2 (amended): provided every plan the generator produces has only file
changes that resolve inside the sandbox (the sandbox apply has no containment
check — see C3 — so an escaping path can write to the working tree during
verification even on an escalate run), a `process_incident` run that decides
escalate leaves the working repository tree — everything outside the
`.sandbox` subtree — exactly as it was. -/
theorem C2_escalate_frame (env : OrchestratorEnv)
    (gen : Nat → Option String → Option FixPlan → Except AgentError FixPlan)
    (runCmd : String → CmdOutcome) (sha16 : String → String) (fs : Fs)
    (hgen : ∀ n pf pp plan, gen n pf pp = Except.ok plan →
      ∀ d ∈ plan.files_to_change, isUnderPath
        (resolvePath (OrchestratorEnv.sandboxPath env) d.file_path)
        (OrchestratorEnv.sandboxPath env) = true)
    (hesc : (Orchestrator.process_incident env gen runCmd sha16 fs).decision =
      Decision.escalate) :
    workingTree env ((Orchestrator.process_incident env gen runCmd sha16 fs).fs) =
      workingTree env fs := by
  have hrun := workingTree_runAux env gen env.test_commands runCmd sha16 hgen
    MarathonAgent.MAX_ATTEMPTS 1 none none [] fs
  unfold Orchestrator.process_incident ReflectiveReasoningLoop.run at hesc ⊢
  dsimp only at hesc ⊢
  generalize hL : ReflectiveReasoningLoop.runAux gen
    (Orchestrator.verify_callback env.repoRoot (OrchestratorEnv.sandboxPath env)
      env.test_commands runCmd sha16) MarathonAgent.MAX_ATTEMPTS 1 none none [] fs = L
    at hesc ⊢
  rw [hL] at hrun
  obtain ⟨fp, atts, fs1⟩ := L
  dsimp only at hesc hrun ⊢
  have hfinal : workingTree env (if env.cleanup_sandbox = true then
      Sandbox.cleanup (OrchestratorEnv.sandboxPath env) fs1 else fs1) =
      workingTree env fs := by
    by_cases hc : env.cleanup_sandbox = true
    · rw [if_pos hc, workingTree_cleanup env fs1]
      exact hrun
    · rw [if_neg hc]
      exact hrun
  cases fp with
  | none => exact hfinal
  | some p =>
    rw [hesc]
    exact hfinal

/-- C2 witness: the quota-exhausted run (no plan is ever generated, so the
in-sandbox side condition is vacuous) decides escalate and leaves the working
tree unchanged. -/
theorem C2_escalate_frame_witness :
    workingTree c2env ((Orchestrator.process_incident c2env c4gen failCmd
      (fun s => s) c2fs0).fs) = workingTree c2env c2fs0 := by
  have hesc : (Orchestrator.process_incident c2env c4gen failCmd
      (fun s => s) c2fs0).decision = Decision.escalate := by
    have hd : (Orchestrator.process_incident c2env c4gen failCmd
        (fun s => s) c2fs0).decision = ResolutionEngine.decide (85/100) 0 (some {}) := rfl
    rw [hd]
    norm_num [ResolutionEngine.decide]
  exact C2_escalate_frame c2env c4gen failCmd (fun s => s) c2fs0
    (fun n pf pp plan h => by cases h) hesc

end Nightingale

namespace Nightingale

/-- C1 witness: a concrete resolve decision at score 0.9 against the default
threshold with healthy factors. -/
theorem C1_resolution_gate_witness :
    ResolutionEngine.decide (85/100) (9/10)
      (some { test_pass_rat := 1, inverse_blast_radius := 1, attempt_penalty := 1,
              risk_modifier := 1, self_consistency_score := 1 }) = Decision.resolve :=
  (C1_resolution_gate (85/100) (9/10)
    { test_pass_rat := 1, inverse_blast_radius := 1, attempt_penalty := 1,
      risk_modifier := 1, self_consistency_score := 1 }).1.mpr
    ⟨by norm_num, by norm_num, by norm_num⟩

/-- C7 witness: the amended statement at the concrete C7 inputs. -/
theorem C7_plan_mutation_only_steps_witness :
    (Orchestrator.verify_callback ["repo"] c3sandboxPath ["pytest"]
        (fun _ => { exit_code := 0, stdout := "", stderr := "" }) (fun s => s) c7plan
        { files := [] }).1 =
      { c7plan with verification_steps :=
          if (["pytest"] : List String) = [] then c7plan.verification_steps
          else ["pytest"] } :=
  C7_plan_mutation_only_steps ["repo"] c3sandboxPath ["pytest"]
    (fun _ => { exit_code := 0, stdout := "", stderr := "" }) (fun s => s) c7plan
    { files := [] }

end Nightingale
